import Mathlib

/-!
Shallow embedding of the tagged-union `Option`/`Either` combinator library of
the functional-programming-typescript book repository, together with the
chapter-3 and chapter-4 exercise solutions.

JavaScript strings are modelled as `List Char`; the JavaScript values
`null` and `undefined` are modelled by the dedicated `Nullable` type where
they can appear as inputs, and a possibly-`undefined` string is modelled as
`Option (List Char)` (with `none` standing for `undefined`).
-/

namespace FPBook

/-- The `Either` tagged union from `src/content/chapter4.md` (and fp-ts):
`Left e` carries a failure payload, `Right a` a success payload. -/
inductive Either (E A : Type) where
  | left (e : E)
  | right (a : A)
deriving DecidableEq

/-- Guard `isLeft` from chapter 4: discriminant check for the `Left` variant. -/
def isLeft {E A : Type} : Either E A → Bool
  | Either.left _ => true
  | Either.right _ => false

/-- Guard `isRight` from chapter 4: discriminant check for the `Right` variant. -/
def isRight {E A : Type} : Either E A → Bool
  | Either.left _ => false
  | Either.right _ => true

/-- A JavaScript value of type `A | null | undefined`, keeping the two
absent sentinels distinct as JavaScript does. -/
inductive Nullable (A : Type) where
  | null
  | undefined
  | val (a : A)
deriving DecidableEq

/-- `fromNullable` from `src/excercises/chapter4/index.ts`:
`typeof a === "undefined" || a === null ? left(defaultValue) : right(a)`. -/
def fromNullable {E A : Type} (defaultValue : E) (a : Nullable A) : Either E A :=
  match a with
  | Nullable.undefined => Either.left defaultValue
  | Nullable.null => Either.left defaultValue
  | Nullable.val x => Either.right x

/-- `mapLeft` from `src/unnamed/part_001`:
`isRight(fa) ? fa : left(f(fa.left))`. -/
def mapLeft {E1 E2 A : Type} (f : E1 → E2) (fa : Either E1 A) : Either E2 A :=
  match fa with
  | Either.right a => Either.right a
  | Either.left e => Either.left (f e)

/-- One step of JavaScript `String.prototype.split` with a non-empty string
separator `sep`: scan left to right, cut at every (leftmost, non-overlapping)
occurrence of `sep`. The `fuel` argument only makes the recursion structural;
each step consumes at least one character, so `fuel = s.length` is always
enough and the `fuel = 0` branch is unreachable from `jsSplit`. -/
def jsSplitGo (sep : List Char) : List Char → Nat → List (List Char)
  | s, 0 => [s]
  | s, fuel + 1 =>
    match s with
    | [] => [[]]
    | c :: cs =>
      if (c :: cs).take sep.length = sep then
        [] :: jsSplitGo sep ((c :: cs).drop sep.length) fuel
      else
        match jsSplitGo sep cs fuel with
        | [] => [[c]]
        | t :: ts => (c :: t) :: ts

/-- JavaScript `s.split(sep)` for string separators: an empty separator
splits `s` into its individual characters (`"".split("") = []`), a
non-empty separator splits at every occurrence (`"".split(sep) = [""]`). -/
def jsSplit (sep s : List Char) : List (List Char) :=
  match sep with
  | [] => s.map (fun c => [c])
  | _ :: _ => jsSplitGo sep s s.length

/-- `parseString` from `src/excercises/chapter4/index.ts`:
`pipe(input.split(pattern), ([f, rest]) => f === "" ? right(rest) : left("could not parse"))`.
The destructuring makes `f` the first split segment (or `undefined` when the
split is empty, in which case `f === ""` is false) and `rest` the second
segment or `undefined`; hence the `Option` in the success payload. -/
def parseString (pattern : List Char) (input : List Char) : Either (List Char) (Option (List Char)) :=
  match jsSplit pattern input with
  | [] => Either.left ("could not parse").data
  | f :: rest =>
    if f = [] then Either.right rest.head? else Either.left ("could not parse").data

/-- fp-ts `O.fromPredicate` as used by `src/excercises/chapter3/index.ts`:
`Some value` when the predicate holds, `none` otherwise. -/
def fromPredicate {A : Type} (predicate : A → Bool) (value : A) : Option A :=
  if predicate value then some value else none

/-- fp-ts `O.match` as used by `src/excercises/chapter3/index.ts`: invoke
`onNone` on `None`, `onSome` on the payload of `Some`. -/
def matchOption {A B : Type} (onNone : Unit → B) (onSome : A → B) (fa : Option A) : B :=
  match fa with
  | none => onNone ()
  | some a => onSome a

/-- `isValidName` from `src/excercises/chapter3/index.ts`:
`pipe(name, O.fromPredicate((n) => n.length > 2))`. -/
def isValidName (name : List Char) : Option (List Char) :=
  fromPredicate (fun n => n.length > 2) name

/-- `greetUser` from `src/excercises/chapter3/index.ts`:
`pipe(name, isValidName, O.match(() => "Hey there, isn't your name a bit short?", (validName) => ` the
`Welcome, ...` template literal`))`. -/
def greetUser (name : List Char) : List Char :=
  matchOption
    (fun _ => ("Hey there, isn\x27t your name a bit short?").data)
    (fun validName => ("Welcome, ").data ++ validName ++ (", you have a great name!").data)
    (isValidName name)

/-- The spec's own examples hold in the embedding:
`parseString("hello")("hello world") = Right(" world")` and
`parseString("hello")("world") = Left("could not parse")`. -/
theorem parseString_spec_examples :
    parseString ("hello").data ("hello world").data = Either.right (some (" world").data) ∧
    parseString ("hello").data ("world").data = Either.left ("could not parse").data := by
  decide

/-- C1: the claim fails on the code. With pattern `"a"` and input `"aa"`
(which starts with the pattern), `input.split(pattern)` removes every
occurrence of the pattern, so the code returns `Right("")` instead of the
claimed `Right("a")` (the input with only the leading occurrence removed). -/
theorem parseString_repeated_pattern_bug :
    parseString ['a'] ['a', 'a'] = Either.right (some []) := by
  decide

/-- C2: the claim fails on the code at the empty input. `"".split("hello")`
is `[""]`, so the first segment compares equal to `""` and the code returns
`Right(undefined)` (modelled `Either.right none`) instead of the claimed
`Left("could not parse")`. -/
theorem parseString_empty_input_bug :
    parseString ("hello").data [] = Either.right none := by
  decide

/-- C3: the claim fails on the code. `"anything".split("")` splits into
single characters, so the first segment is `"a" ≠ ""` and the code returns
`Left("could not parse")` instead of the claimed `Right("anything")`; the
same happens for every input when the pattern is empty. -/
theorem parseString_empty_pattern_bug :
    parseString [] ("anything").data = Either.left ("could not parse").data := by
  decide

/-- C4: the claim fails on the code. With pattern `"x"` and empty input the
split is `[""]`, `rest` is `undefined`, and the code returns a `Right` whose
payload is absent (modelled `Either.right none`), not a string. -/
theorem parseString_malformed_result_bug :
    parseString ['x'] [] = Either.right none := by
  decide

/-- C5: `fromNullable d x` is `Left d` exactly when `x` is `null` or
`undefined`, and is `Right a` on every defined value `val a` (including
falsy-but-defined values such as the empty string or `0`, which are `val`
inputs like any other). -/
theorem fromNullable_spec :
    ∀ {E A : Type} (d : E) (x : Nullable A),
      (fromNullable d x = Either.left d ↔ (x = Nullable.null ∨ x = Nullable.undefined)) ∧
      (∀ a : A, fromNullable d (Nullable.val a) = Either.right a) := by
  intro E A d x
  refine ⟨?_, fun a => rfl⟩
  cases x <;> simp [fromNullable]

/-- C6: `mapLeft f` returns `Right a` unchanged on `Right a` — and since
this holds for every `f`, the result on `Right` is independent of `f`, the
observable content of "`f` is never invoked" — and returns `Left (f e)`
on `Left e`. -/
theorem mapLeft_spec :
    ∀ {E1 E2 A : Type} (f : E1 → E2),
      (∀ a : A, mapLeft f (Either.right a) = Either.right a) ∧
      (∀ (g : E1 → E2) (a : A), mapLeft f (Either.right a) = mapLeft g (Either.right a)) ∧
      (∀ e : E1, mapLeft f (Either.left e : Either E1 A) = Either.left (f e)) := by
  intro E1 E2 A f
  exact ⟨fun a => rfl, fun g a => rfl, fun e => rfl⟩

/-- C6 concrete examples from the spec: `mapLeft (x ↦ x+1)` maps `Right 1`
to `Right 1` and `Left 1` to `Left 2`. -/
theorem mapLeft_examples :
    mapLeft (fun x : Nat => x + 1) (Either.right 1 : Either Nat Nat) = Either.right 1 ∧
    mapLeft (fun x : Nat => x + 1) (Either.left 1 : Either Nat Nat) = Either.left 2 := by
  decide

/-- C7: `mapLeft` never moves a value between variants: the result is a
`Right` exactly when the argument is, and a `Left` exactly when the
argument is. -/
theorem mapLeft_preserves_variant :
    ∀ {E1 E2 A : Type} (f : E1 → E2) (fa : Either E1 A),
      isRight (mapLeft f fa) = isRight fa ∧ isLeft (mapLeft f fa) = isLeft fa := by
  intro E1 E2 A f fa
  cases fa <;> simp [mapLeft, isRight, isLeft]

/-- C8: the exported combinators are deterministic functions of their
arguments: equal inputs give equal results. (Absence of external state,
mutation and I/O holds by construction of the embedding: each definition
above is a pure function of exactly the source's arguments.) -/
theorem combinators_deterministic :
    (∀ {E A : Type} (d : E) (x y : Nullable A), x = y → fromNullable d x = fromNullable d y) ∧
    (∀ (p1 p2 s1 s2 : List Char), p1 = p2 → s1 = s2 → parseString p1 s1 = parseString p2 s2) ∧
    (∀ {E1 E2 A : Type} (f : E1 → E2) (fa fb : Either E1 A), fa = fb → mapLeft f fa = mapLeft f fb) := by
  refine ⟨fun d x y h => by rw [h], fun p1 p2 s1 s2 h1 h2 => by rw [h1, h2],
    fun f fa fb h => by rw [h]⟩

/-- Witness for C8 at concrete inputs: each combinator applied twice to the
same concrete input gives the same result. -/
theorem combinators_deterministic_witness :
    fromNullable ("foo").data (Nullable.val (1 : Nat)) = fromNullable ("foo").data (Nullable.val 1) ∧
    parseString ['a'] ['a', 'b'] = parseString ['a'] ['a', 'b'] ∧
    mapLeft (fun x : Nat => x + 1) (Either.left 1 : Either Nat Nat) =
      mapLeft (fun x : Nat => x + 1) (Either.left 1 : Either Nat Nat) :=
  ⟨combinators_deterministic.1 ("foo").data (Nullable.val 1) (Nullable.val 1) rfl,
   combinators_deterministic.2.1 ['a'] ['a'] ['a', 'b'] ['a', 'b'] rfl rfl,
   combinators_deterministic.2.2 (fun x : Nat => x + 1) (Either.left 1) (Either.left 1) rfl⟩

/-- C9: `isValidName name` is `some name` (the original name unchanged)
exactly when `name` has length strictly greater than `2`, and is `none`
exactly when the length is at most `2`. -/
theorem isValidName_spec :
    ∀ name : List Char,
      (isValidName name = some name ↔ 2 < name.length) ∧
      (isValidName name = none ↔ name.length ≤ 2) := by
  intro name
  by_cases h : 2 < name.length
  · simp [isValidName, fromPredicate, h, Nat.not_le.mpr h]
  · rw [Nat.not_lt] at h
    simp [isValidName, fromPredicate, h, Nat.not_lt.mpr h]

/-- C10: `greetUser name` is `"Welcome, " ++ name ++ ", you have a great name!"`
when `name` is longer than `2` characters and
`"Hey there, isn't your name a bit short?"` otherwise; being an equality for
every input, it returns no other string. -/
theorem greetUser_spec :
    ∀ name : List Char,
      greetUser name =
        if 2 < name.length
        then ("Welcome, ").data ++ name ++ (", you have a great name!").data
        else ("Hey there, isn\x27t your name a bit short?").data := by
  intro name
  by_cases h : 2 < name.length <;>
    simp [greetUser, isValidName, fromPredicate, matchOption, h]

end FPBook
